import Mathlib

/-!
Verification of the douyin-downloader content-acquisition core
(`downloader.py`): a shallow embedding of the statistics aggregator,
retry executor, file acquisition engine, time filter, media resolver,
incremental-deduplication logic and pagination loops, together with
theorems settling the specification claims about them.

Network and filesystem effects are modelled by explicit event traces;
external library behaviour (HTTP responses, `datetime.fromtimestamp`,
whether a media download succeeds) is passed in as oracle parameters.
-/

namespace DY

/-! ### Stats aggregator (`DownloadStats`, downloader.py lines 73-98) -/

structure DownloadStats where
  total : Nat
  success : Nat
  failed : Nat
  skipped : Nat
deriving DecidableEq, Repr

/-- Outcome of one execution of the body of `download_single_video`
(downloader.py lines 406-470), restricted to the video/image branch
(the user-page redirect branch dispatches to a different flow). -/
inductive SingleOutcome
  | noId        -- `extract_id_from_url` returned None: early `return False`
  | fetchFailed -- video info falsy after retries: `failed += 1`
  | mediaOk     -- `_download_media_files` returned True: `success += 1`
  | mediaFailed -- `_download_media_files` returned False: `failed += 1`
  | raisedError -- exception caught: `failed += 1`
deriving DecidableEq, Repr

/-- Embedding of the stats mutations of `download_single_video`: the
per-outcome bucket update, then `total += 1` in the `finally` block
(which runs on every path, including the no-ID early return). -/
def downloadSingleVideo (o : SingleOutcome) (s : DownloadStats) : Bool × DownloadStats :=
  match o with
  | SingleOutcome.noId => (false, { s with total := s.total + 1 })
  | SingleOutcome.fetchFailed => (false, { s with failed := s.failed + 1, total := s.total + 1 })
  | SingleOutcome.mediaOk => (true, { s with success := s.success + 1, total := s.total + 1 })
  | SingleOutcome.mediaFailed => (false, { s with failed := s.failed + 1, total := s.total + 1 })
  | SingleOutcome.raisedError => (false, { s with failed := s.failed + 1, total := s.total + 1 })

/-- A run over a list of single-video links, starting from the zeroed
stats created in `UnifiedDownloader.__init__`. -/
def runSingles (os : List SingleOutcome) : DownloadStats :=
  os.foldl (fun s o => (downloadSingleVideo o s).2) ⟨0, 0, 0, 0⟩

/-! ### File acquisition engine (`_download_file`, downloader.py lines 715-754) -/

/-- Result of an HTTP GET for one candidate URL: a status code with the
response body, or a raised transport error. -/
inductive HttpResult
  | status (code : Nat) (body : String)
  | transportError
deriving DecidableEq, Repr

/-- Observable network/filesystem events of `_download_file`.  `persist`
(an atomic rename of a temporary file onto a destination) is part of the
event vocabulary so that temp-then-persist behaviour is expressible; the
source never performs it. -/
inductive DlEv
  | get (url : String)
  | write (path : String) (bytes : String)
  | persist (src : String) (dst : String)
deriving DecidableEq, Repr

def ok200 : HttpResult → Bool
  | HttpResult.status 200 _ => true
  | _ => false

/-- The candidate loop of `_download_file`: on status 200 the body is
written directly to `savePath` (`open(save_path, 'wb')`) and True is
returned; on any other status or a transport error the next candidate is
tried (the 403 branch additionally sleeps, which is not an observable
event here); when candidates run out, False. -/
def tryUrls (respond : String → HttpResult) (savePath : String) :
    List String → Bool × List DlEv
  | [] => (false, [])
  | u :: rest =>
    match respond u with
    | HttpResult.status code body =>
      if code = 200 then (true, [DlEv.get u, DlEv.write savePath body])
      else
        let r := tryUrls respond savePath rest
        (r.1, DlEv.get u :: r.2)
    | HttpResult.transportError =>
      let r := tryUrls respond savePath rest
      (r.1, DlEv.get u :: r.2)

/-- Embedding of `_download_file`.  `destExists` models
`save_path.exists()`; `respond` is the HTTP oracle.  The candidate list
is the primary URL followed by the fallback URLs that differ from it. -/
def downloadFile (destExists : Bool) (respond : String → HttpResult)
    (url savePath : String) (fallbackUrls : List String) : Bool × List DlEv :=
  if destExists then (true, [])
  else tryUrls respond savePath (url :: fallbackUrls.filter (fun u => u != url))

/-! ### Retry executor (`RetryManager.execute_with_retry`, lines 117-135) -/

inductive RetryEv
  | invoke (attempt : Nat)
  | sleep (secs : Nat)
deriving DecidableEq, Repr

/-- The `retry_delays` schedule of `RetryManager`. -/
def retryDelays : List Nat := [1, 2, 5]

def exceptIsOk {ε α : Type} : Except ε α → Bool
  | Except.ok _ => true
  | Except.error _ => false

/-- The attempt loop of `execute_with_retry`: `op` is invoked per
attempt (0-based); a failure on a non-final attempt sleeps
`retry_delays[min(attempt, 2)]`; after the loop the last error is
re-raised.  The first component is `none` only in the degenerate
`max_retries = 0` case, where the source raises `None`. -/
def retryGo {ε α : Type} (op : Nat → Except ε α) (maxRetries : Nat) :
    Nat → Nat → Option ε → Option (Except ε α) × List RetryEv
  | 0, _, lastError => (lastError.map Except.error, [])
  | remaining + 1, attempt, _ =>
    match op attempt with
    | Except.ok a => (some (Except.ok a), [RetryEv.invoke attempt])
    | Except.error e =>
      if attempt < maxRetries - 1 then
        let rest := retryGo op maxRetries remaining (attempt + 1) (some e)
        (rest.1, RetryEv.invoke attempt ::
          RetryEv.sleep (retryDelays.getD (min attempt (retryDelays.length - 1)) 0) :: rest.2)
      else
        let rest := retryGo op maxRetries remaining (attempt + 1) (some e)
        (rest.1, RetryEv.invoke attempt :: rest.2)

def executeWithRetry {ε α : Type} (maxRetries : Nat) (op : Nat → Except ε α) :
    Option (Except ε α) × List RetryEv :=
  retryGo op maxRetries maxRetries 0 none

/-- The event schedule the spec describes for a run of `n` all-failing
attempts starting at attempt `a`: invoke, then sleep
`delay[min(attempt, len(delay)-1)]` after every failed attempt other
than the last. -/
def scheduleFrom : Nat → Nat → List RetryEv
  | _, 0 => []
  | a, 1 => [RetryEv.invoke a]
  | a, r + 2 => RetryEv.invoke a ::
      RetryEv.sleep (retryDelays.getD (min a (retryDelays.length - 1)) 0) ::
      scheduleFrom (a + 1) (r + 1)

def isInvoke : RetryEv → Bool
  | RetryEv.invoke _ => true
  | _ => false

def countInvokes (l : List RetryEv) : Nat := l.countP isInvoke

/-! ### Python datetime model (for `_check_time_filter`, lines 1339-1378) -/

structure PyDateTime where
  year : Nat
  month : Nat
  day : Nat
  hour : Nat
  minute : Nat
  second : Nat
deriving DecidableEq, Repr

/-- Python datetime comparison: lexicographic on
(year, month, day, hour, minute, second). -/
def dtLt (a b : PyDateTime) : Bool :=
  if a.year ≠ b.year then a.year < b.year
  else if a.month ≠ b.month then a.month < b.month
  else if a.day ≠ b.day then a.day < b.day
  else if a.hour ≠ b.hour then a.hour < b.hour
  else if a.minute ≠ b.minute then a.minute < b.minute
  else decide (a.second < b.second)

def digitVal (c : Char) : Option Nat :=
  if c.isDigit then some (c.toNat - 48) else none

def expectChar (c : Char) : List Char → Option (List Char)
  | [] => none
  | x :: rest => if x = c then some rest else none

/-- `%Y` in CPython `_strptime`: exactly four digits. -/
def parseYear4 : List Char → Option (Nat × List Char)
  | c1 :: c2 :: c3 :: c4 :: rest => do
    let v1 ← digitVal c1
    let v2 ← digitVal c2
    let v3 ← digitVal c3
    let v4 ← digitVal c4
    pure (v1 * 1000 + v2 * 100 + v3 * 10 + v4, rest)
  | _ => none

/-- `%m`: the ordered regex alternatives `1[0-2]`, `0[1-9]`, `[1-9]`. -/
def parseMonth : List Char → Option (Nat × List Char)
  | '1' :: c :: rest =>
    if c = '0' ∨ c = '1' ∨ c = '2' then some (10 + (c.toNat - 48), rest)
    else some (1, c :: rest)
  | '0' :: c :: rest =>
    match digitVal c with
    | some v => if 1 ≤ v then some (v, rest) else none
    | none => none
  | c :: rest =>
    match digitVal c with
    | some v => if 1 ≤ v then some (v, rest) else none
    | none => none
  | [] => none

/-- `%d`: the ordered regex alternatives `3[01]`, `[12]\d`, `0[1-9]`, `[1-9]`. -/
def parseDay : List Char → Option (Nat × List Char)
  | '3' :: c :: rest =>
    if c = '0' ∨ c = '1' then some (30 + (c.toNat - 48), rest)
    else some (3, c :: rest)
  | '1' :: c :: rest =>
    match digitVal c with
    | some v => some (10 + v, rest)
    | none => some (1, c :: rest)
  | '2' :: c :: rest =>
    match digitVal c with
    | some v => some (20 + v, rest)
    | none => some (2, c :: rest)
  | '0' :: c :: rest =>
    match digitVal c with
    | some v => if 1 ≤ v then some (v, rest) else none
    | none => none
  | c :: rest =>
    match digitVal c with
    | some v => if 1 ≤ v then some (v, rest) else none
    | none => none
  | [] => none

/-- `%H`: the ordered regex alternatives `2[0-3]`, `[0-1]\d`, `\d`. -/
def parseHour : List Char → Option (Nat × List Char)
  | '2' :: c :: rest =>
    if c = '0' ∨ c = '1' ∨ c = '2' ∨ c = '3' then some (20 + (c.toNat - 48), rest)
    else some (2, c :: rest)
  | '0' :: c :: rest =>
    match digitVal c with
    | some v => some (v, rest)
    | none => some (0, c :: rest)
  | '1' :: c :: rest =>
    match digitVal c with
    | some v => some (10 + v, rest)
    | none => some (1, c :: rest)
  | c :: rest =>
    match digitVal c with
    | some v => some (v, rest)
    | none => none
  | [] => none

/-- `%M`: the ordered regex alternatives `[0-5]\d`, `\d`. -/
def parseMinute : List Char → Option (Nat × List Char)
  | c1 :: c2 :: rest =>
    match digitVal c1, digitVal c2 with
    | some v1, some v2 =>
      if v1 ≤ 5 then some (v1 * 10 + v2, rest) else some (v1, c2 :: rest)
    | some v1, none => some (v1, c2 :: rest)
    | none, _ => none
  | [c1] =>
    match digitVal c1 with
    | some v1 => some (v1, [])
    | none => none
  | [] => none

/-- `%S`: the ordered regex alternatives `6[0-1]`, `[0-5]\d`, `\d`. -/
def parseSecond : List Char → Option (Nat × List Char)
  | '6' :: c :: rest =>
    if c = '0' ∨ c = '1' then some (60 + (c.toNat - 48), rest)
    else some (6, c :: rest)
  | c1 :: c2 :: rest =>
    match digitVal c1, digitVal c2 with
    | some v1, some v2 =>
      if v1 ≤ 5 then some (v1 * 10 + v2, rest) else some (v1, c2 :: rest)
    | some v1, none => some (v1, c2 :: rest)
    | none, _ => none
  | [c1] =>
    match digitVal c1 with
    | some v1 => some (v1, [])
    | none => none
  | [] => none

def isLeap (y : Nat) : Bool := (y % 4 == 0 && y % 100 != 0) || y % 400 == 0

def daysInMonth (y m : Nat) : Nat :=
  match m with
  | 2 => if isLeap y then 29 else 28
  | 4 => 30
  | 6 => 30
  | 9 => 30
  | 11 => 30
  | _ => 31

/-- The `datetime(...)` constructor's validation after a regex match:
year at least 1, day within the month (`%S` may match the leap-second
values 60 and 61, which the constructor rejects). -/
def mkDateTime (y mo d h mi s : Nat) : Option PyDateTime :=
  if 1 ≤ y ∧ 1 ≤ d ∧ d ≤ daysInMonth y mo ∧ s ≤ 59 then
    some ⟨y, mo, d, h, mi, s⟩
  else none

/-- `datetime.strptime(s, fmt)` for a format of shape
`%Y-%m-%d<mid>%H<tsep>%M<tsep>%S`, requiring the whole string to be
consumed. -/
def strptimeCreate (mid tsep : Char) (s : String) : Option PyDateTime := do
  let cs0 := s.data
  let (y, cs1) ← parseYear4 cs0
  let cs2 ← expectChar '-' cs1
  let (mo, cs3) ← parseMonth cs2
  let cs4 ← expectChar '-' cs3
  let (d, cs5) ← parseDay cs4
  let cs6 ← expectChar mid cs5
  let (h, cs7) ← parseHour cs6
  let cs8 ← expectChar tsep cs7
  let (mi, cs9) ← parseMinute cs8
  let cs10 ← expectChar tsep cs9
  let (sec, cs11) ← parseSecond cs10
  match cs11 with
  | [] => mkDateTime y mo d h mi sec
  | _ => none

/-- The three accepted `create_time` string formats, tried in the
source's order: `%Y-%m-%d %H.%M.%S`, `%Y-%m-%d_%H-%M-%S`,
`%Y-%m-%d %H:%M:%S`. -/
def parseCreateString (s : String) : Option PyDateTime :=
  match strptimeCreate ' ' '.' s with
  | some d => some d
  | none =>
    match strptimeCreate '_' '-' s with
    | some d => some d
    | none => strptimeCreate ' ' ':' s

/-- The `create_time` value carried by a fetched item: a numeric epoch
or a textual form. -/
inductive CreateTimeVal
  | num (epoch : Int)
  | str (s : String)
deriving DecidableEq, Repr

/-- Python truthiness of the raw `create_time` value (`if not
raw_create_time`): absent, numeric zero and the empty string are falsy. -/
def createTimeFalsy : Option CreateTimeVal → Bool
  | none => true
  | some (CreateTimeVal.num t) => t == 0
  | some (CreateTimeVal.str s) => s == ""

/-! ### Items, configuration, dedup store -/

/-- A fetched item, as far as the claims need it.  `aweme_id` and
`author_sec_uid` model `_get_aweme_id_from_info` / `_get_sec_uid_from_info`
results (`none` covers both a missing value and the falsy string the
source produces for one).  `media_ok` is the network oracle for whether
`_download_media_files` succeeds for this item. -/
structure Aweme where
  aweme_id : Option String
  author_sec_uid : Option String
  create_time : Option CreateTimeVal
  media_ok : Bool
deriving DecidableEq, Repr

/-- Configured time window.  The source parses the configured strings
with `datetime.strptime(value, '%Y-%m-%d')`, yielding midnight
datetimes; the bounds are modelled as those parsed values (a malformed
configured bound raises in the source and is outside this model). -/
structure TimeCfg where
  start_time : Option PyDateTime
  end_time : Option PyDateTime
deriving DecidableEq, Repr

/-- The per-scope `increase` flags of the configuration. -/
structure IncreaseCfg where
  post : Bool
  like : Bool
  mix : Bool
  music : Bool
deriving DecidableEq, Repr

structure Cfg where
  time : TimeCfg
  increase : IncreaseCfg
  numberPost : Nat
  numberLike : Nat
  numberMusic : Nat
deriving Repr

/-- The dedup store (`DataBase`) as a read oracle: each field models the
corresponding lookup returning a truthy row. -/
structure Db where
  userPost : String → Nat → Bool
  userLike : String → Nat → Bool
  mixTbl : String → String → Nat → Bool
  musicTbl : String → Nat → Bool

inductive Scope
  | post
  | like
  | mix
  | music
deriving DecidableEq, Repr

/-- Observable dedup-store and download events of the per-item loops. -/
inductive DbEv
  | query (scope : Scope) (aid : Nat)
  | insert (scope : Scope) (aid : Nat)
  | mediaDl (aid : Option String) (ok : Bool)
deriving DecidableEq, Repr

/-- Python string truthiness: the empty string is falsy. -/
def strTruthy : Option String → Option String
  | some s => if s == "" then none else some s
  | none => none

/-- The `a or b or ''` idiom used for `sec_uid` defaults. -/
def pyFirst (a b : Option String) : String :=
  match strTruthy a with
  | some s => s
  | none =>
    match strTruthy b with
    | some t => t
    | none => ""

/-- Python `str.isdigit` restricted to ASCII digits (all ids here are). -/
def isDigits (s : String) : Bool := !s.data.isEmpty && s.data.all Char.isDigit

/-- `int(s)` for an all-digit string. -/
def pyInt (s : String) : Nat := s.data.foldl (fun n c => n * 10 + (c.toNat - 48)) 0

/-- Embedding of `_should_skip_increment` (lines 356-380): consults the
store only when the database is enabled, the scope's increase flag is
set and the id is a digit string; emits a `query` event exactly when a
lookup happens. -/
def shouldSkipIncrement (db : Option Db) (inc : IncreaseCfg) (ctx : Scope)
    (info : Aweme) (mixId musicId secUid : Option String) : Bool × List DbEv :=
  match db with
  | none => (false, [])
  | some d =>
    match strTruthy info.aweme_id with
    | none => (false, [])
    | some aid =>
      match ctx with
      | Scope.post =>
        if inc.post then
          if isDigits aid then
            let n := pyInt aid
            (d.userPost (pyFirst secUid info.author_sec_uid) n, [DbEv.query Scope.post n])
          else (false, [])
        else (false, [])
      | Scope.like =>
        if inc.like then
          if isDigits aid then
            let n := pyInt aid
            (d.userLike (pyFirst secUid info.author_sec_uid) n, [DbEv.query Scope.like n])
          else (false, [])
        else (false, [])
      | Scope.mix =>
        if inc.mix then
          if isDigits aid then
            let n := pyInt aid
            (d.mixTbl (pyFirst secUid info.author_sec_uid) ((strTruthy mixId).getD "") n,
             [DbEv.query Scope.mix n])
          else (false, [])
        else (false, [])
      | Scope.music =>
        if inc.music then
          if isDigits aid then
            let n := pyInt aid
            (d.musicTbl ((strTruthy musicId).getD "") n, [DbEv.query Scope.music n])
          else (false, [])
        else (false, [])

/-- Embedding of `_record_increment` (lines 382-404): after a successful
download, a record is inserted whenever the database is enabled and the
id is a digit string (the increase flags are not consulted here, as in
the source). -/
def recordIncrement (db : Option Db) (ctx : Scope) (info : Aweme) : List DbEv :=
  match db with
  | none => []
  | some _ =>
    match strTruthy info.aweme_id with
    | none => []
    | some aid =>
      if isDigits aid then [DbEv.insert ctx (pyInt aid)] else []

/-- Auxiliary for `_check_time_filter`: the create-time value actually
compared, i.e. `datetime.fromtimestamp` (oracle `fromTs`, which models
the local-timezone conversion and its possible failure) for numbers and
the three-format parse for strings. -/
def parsedCreateDate (fromTs : Int → Option PyDateTime) :
    Option CreateTimeVal → Option PyDateTime
  | some (CreateTimeVal.num t) => fromTs t
  | some (CreateTimeVal.str s) => parseCreateString s
  | none => none

/-- Embedding of `_check_time_filter` (lines 1339-1378). -/
def checkTimeFilter (fromTs : Int → Option PyDateTime) (tc : TimeCfg)
    (aweme : Aweme) : Bool :=
  match tc.start_time, tc.end_time with
  | none, none => true
  | _, _ =>
    if createTimeFalsy aweme.create_time then true
    else
      match parsedCreateDate fromTs aweme.create_time with
      | none => true
      | some cd =>
        match tc.start_time with
        | some sd =>
          if dtLt cd sd then false
          else
            match tc.end_time with
            | some ed => !(dtLt ed cd)
            | none => true
        | none =>
          match tc.end_time with
          | some ed => !(dtLt ed cd)
          | none => true

/-- Spec-side helper: the item's create time does not fall before the
configured start bound (if any). -/
def startPass (cd : PyDateTime) : Option PyDateTime → Bool
  | some sd => !(dtLt cd sd)
  | none => true

/-- Spec-side helper: the item's create time does not fall after the
configured end bound (if any). -/
def endPass (cd : PyDateTime) : Option PyDateTime → Bool
  | some ed => !(dtLt ed cd)
  | none => true

/-! ### Media resolver (`_get_no_watermark_url`, lines 654-680) -/

/-- A play/download address: a dict holding an ordered `url_list`. -/
structure Addr where
  url_list : List String
deriving DecidableEq, Repr

/-- The `video` sub-dict of an item's info, as far as the video URL
selection reads it.  `none` stands for an absent or Python-falsy value. -/
structure VideoInfo where
  play_addr : Option Addr
  play_addr_h264 : Option Addr
  download_addr : Option Addr
deriving DecidableEq, Repr

def leadMatch : List Char → List Char → Bool
  | [], _ => true
  | _ :: _, [] => false
  | p :: ps, c :: cs => p == c && leadMatch ps cs

/-- Python `str.replace`: all non-overlapping occurrences, left to
right.  Structural recursion on a fuel that bounds the remaining length
(every step consumes at least one character, so fuel equal to the input
length never runs out). -/
def replGo (pat rep : List Char) : Nat → List Char → List Char
  | 0, l => l
  | _ + 1, [] => []
  | fuel + 1, c :: cs =>
    if pat.length ≠ 0 ∧ leadMatch pat (c :: cs) = true then
      rep ++ replGo pat rep fuel (cs.drop (pat.length - 1))
    else
      c :: replGo pat rep fuel cs

def replChars (pat rep : List Char) (l : List Char) : List Char :=
  replGo pat rep l.length l

def pyReplace (s pat rep : String) : String :=
  String.mk (replChars pat.data rep.data s.data)

/-- The two textual substitutions applied to the chosen play URL:
`playwm` to `play`, then `720p` to `1080p`. -/
def noWatermarkTransform (u : String) : String :=
  pyReplace (pyReplace u ("playwm") ("play")) ("720p") ("1080p")

def addrUrls : Option Addr → List String
  | none => []
  | some a => a.url_list

/-- Embedding of `_get_no_watermark_url`: `play_addr_h264 or play_addr`
by Python truthiness, its first candidate transformed; otherwise the
first `download_addr` candidate; otherwise no URL. -/
def getNoWatermarkUrl (v : VideoInfo) : Option String :=
  let play :=
    match v.play_addr_h264 with
    | some a => some a
    | none => v.play_addr
  match play with
  | some a =>
    match a.url_list with
    | u :: _ => some (noWatermarkTransform u)
    | [] => (addrUrls v.download_addr).head?
  | none => (addrUrls v.download_addr).head?

/-! ### Per-item loop bodies and pagination walkers -/

/-- Running state of a scope loop: the scope's `downloaded` counter, the
shared stats, the accumulated event trace and whether an early `return`
fired. -/
structure LoopSt where
  downloaded : Nat
  stats : DownloadStats
  events : List DbEv
  earlyReturn : Bool
deriving DecidableEq, Repr

def initSt : LoopSt := ⟨0, ⟨0, 0, 0, 0⟩, [], false⟩

/-- The body of the per-item loop of `_download_user_posts` (lines
849-878): count-limit early return, time filter, increment skip,
download, stats update and dedup record on success. -/
def processPostItem (fromTs : Int → Option PyDateTime) (cfg : Cfg) (db : Option Db)
    (uid : String) (st : LoopSt) (aweme : Aweme) : LoopSt × List DbEv :=
  if st.earlyReturn then (st, [])
  else if cfg.numberPost > 0 ∧ st.downloaded ≥ cfg.numberPost then
    ({ st with earlyReturn := true }, [])
  else if checkTimeFilter fromTs cfg.time aweme = false then (st, [])
  else
    let skipQ := shouldSkipIncrement db cfg.increase Scope.post aweme none none (some uid)
    if skipQ.1 then (st, skipQ.2)
    else
      let dlEv := DbEv.mediaDl aweme.aweme_id aweme.media_ok
      if aweme.media_ok then
        ({ st with downloaded := st.downloaded + 1,
                   stats := { st.stats with success := st.stats.success + 1 } },
         skipQ.2 ++ [dlEv] ++ recordIncrement db Scope.post aweme)
      else
        ({ st with stats := { st.stats with failed := st.stats.failed + 1 } },
         skipQ.2 ++ [dlEv])

/-- The body of the per-item loop of `_download_user_likes` (lines
963-987): like `post` but without stats updates. -/
def processLikeItem (fromTs : Int → Option PyDateTime) (cfg : Cfg) (db : Option Db)
    (uid : String) (st : LoopSt) (aweme : Aweme) : LoopSt × List DbEv :=
  if st.earlyReturn then (st, [])
  else if cfg.numberLike > 0 ∧ st.downloaded ≥ cfg.numberLike then
    ({ st with earlyReturn := true }, [])
  else if checkTimeFilter fromTs cfg.time aweme = false then (st, [])
  else
    let skipQ := shouldSkipIncrement db cfg.increase Scope.like aweme none none (some uid)
    if skipQ.1 then (st, skipQ.2)
    else
      let dlEv := DbEv.mediaDl aweme.aweme_id aweme.media_ok
      if aweme.media_ok then
        ({ st with downloaded := st.downloaded + 1 },
         skipQ.2 ++ [dlEv] ++ recordIncrement db Scope.like aweme)
      else (st, skipQ.2 ++ [dlEv])

/-- The body of the per-item loop of `download_music` (lines 1270-1279):
count-limit early return, increment skip, download, dedup record on
success; no time filter. -/
def processMusicItem (cfg : Cfg) (db : Option Db) (musicId : String)
    (st : LoopSt) (aweme : Aweme) : LoopSt × List DbEv :=
  if st.earlyReturn then (st, [])
  else if cfg.numberMusic > 0 ∧ st.downloaded ≥ cfg.numberMusic then
    ({ st with earlyReturn := true }, [])
  else
    let skipQ := shouldSkipIncrement db cfg.increase Scope.music aweme none (some musicId) none
    if skipQ.1 then (st, skipQ.2)
    else
      let dlEv := DbEv.mediaDl aweme.aweme_id aweme.media_ok
      if aweme.media_ok then
        ({ st with downloaded := st.downloaded + 1 },
         skipQ.2 ++ [dlEv] ++ recordIncrement db Scope.music aweme)
      else (st, skipQ.2 ++ [dlEv])

/-- The body of the per-item loop of `_download_mix_by_id` (lines
1179-1182): download and count; no time filter, no increment check, no
dedup record. -/
def processMixItem (st : LoopSt) (aweme : Aweme) : LoopSt × List DbEv :=
  let dlEv := DbEv.mediaDl aweme.aweme_id aweme.media_ok
  if aweme.media_ok then ({ st with downloaded := st.downloaded + 1 }, [dlEv])
  else (st, [dlEv])

def appendEvs (p : LoopSt × List DbEv) : LoopSt :=
  { p.1 with events := p.1.events ++ p.2 }

def processPostItems (fromTs : Int → Option PyDateTime) (cfg : Cfg) (db : Option Db)
    (uid : String) (items : List Aweme) (st : LoopSt) : LoopSt :=
  items.foldl (fun s a => appendEvs (processPostItem fromTs cfg db uid s a)) st

def processMixItems (items : List Aweme) (st : LoopSt) : LoopSt :=
  items.foldl (fun s a => appendEvs (processMixItem s a)) st

/-- One page of a paginated fetch (`aweme_list`, `has_more`); the opaque
cursor is not observable in the claims. -/
structure Page where
  aweme_list : List Aweme
  has_more : Bool
deriving DecidableEq, Repr

/-- The fetch-process loop of `_download_user_posts` (lines 831-884)
from its second fetch on: each call consumes the next element of the
modelled fetch-result stream (an exhausted stream behaves as a failed
fetch); a failed fetch, an empty item list, an early return or
`has_more` false ends the loop.  Returns the number of fetch calls
performed and the final state. -/
def postsPagesGo (fromTs : Int → Option PyDateTime) (cfg : Cfg) (db : Option Db)
    (uid : String) : List (Option Page) → LoopSt → Nat → Nat × LoopSt
  | [], st, fc => (fc + 1, st)
  | none :: _, st, fc => (fc + 1, st)
  | some page :: rest, st, fc =>
    let fc' := fc + 1
    if page.aweme_list.isEmpty then (fc', st)
    else
      let st' := processPostItems fromTs cfg db uid page.aweme_list st
      if st'.earlyReturn then (fc', st')
      else if page.has_more then postsPagesGo fromTs cfg db uid rest st' fc'
      else (fc', st')

/-- Embedding of `_download_user_posts`: one pre-loop fetch whose page,
when it succeeds, is reused by the first loop iteration without a second
fetch; when the pre-fetch fails the loop fetches again. -/
def downloadUserPosts (fromTs : Int → Option PyDateTime) (cfg : Cfg) (db : Option Db)
    (uid : String) (fetches : List (Option Page)) : Nat × LoopSt :=
  match fetches with
  | [] => postsPagesGo fromTs cfg db uid [] initSt 1
  | none :: rest => postsPagesGo fromTs cfg db uid rest initSt 1
  | some page :: rest =>
    if page.aweme_list.isEmpty then (1, initSt)
    else
      let st' := processPostItems fromTs cfg db uid page.aweme_list initSt
      if st'.earlyReturn then (1, st')
      else if page.has_more then postsPagesGo fromTs cfg db uid rest st' 1
      else (1, st')

/-- The fetch-process loop of `_download_mix_by_id` (lines 1162-1188). -/
def mixPagesGo : List (Option Page) → LoopSt → Nat → Nat × LoopSt
  | [], st, fc => (fc + 1, st)
  | none :: _, st, fc => (fc + 1, st)
  | some page :: rest, st, fc =>
    let fc' := fc + 1
    if page.aweme_list.isEmpty then (fc', st)
    else
      let st' := processMixItems page.aweme_list st
      if page.has_more then mixPagesGo rest st' fc'
      else (fc', st')

/-- Embedding of `_download_mix_by_id`: the collection walker. -/
def downloadMixById (fetches : List (Option Page)) : Nat × LoopSt :=
  mixPagesGo fetches initSt 0

/-! ### Concrete fixtures used by counterexamples and witnesses -/

def fromTs0 : Int → Option PyDateTime := fun _ => none

def respond200 : String → HttpResult := fun _ => HttpResult.status 200 ("BODY")

def respond404 : String → HttpResult := fun _ => HttpResult.status 404 ("")

def incAllOn : IncreaseCfg := ⟨true, true, true, true⟩

def dbAll : Db :=
  ⟨fun _ _ => true, fun _ _ => true, fun _ _ _ => true, fun _ _ => true⟩

def cfg0 : Cfg :=
  { time := ⟨none, none⟩, increase := incAllOn,
    numberPost := 0, numberLike := 0, numberMusic := 0 }

def awemeC : Aweme :=
  { aweme_id := some ("123"), author_sec_uid := some ("sec"),
    create_time := none, media_ok := true }

def pageW : Page := { aweme_list := [awemeC], has_more := false }

def sdW : PyDateTime := ⟨2024, 2, 1, 0, 0, 0⟩

def cdW : PyDateTime := ⟨2024, 1, 15, 10, 0, 0⟩

def tcW : TimeCfg := ⟨some sdW, none⟩

def awemeW : Aweme :=
  { aweme_id := some ("1"), author_sec_uid := none,
    create_time := some (CreateTimeVal.str ("2024-01-15 10:00:00")), media_ok := true }

def awemeU : Aweme :=
  { aweme_id := some ("1"), author_sec_uid := none,
    create_time := some (CreateTimeVal.str ("2024/01/31")), media_ok := true }

def tcC : TimeCfg := ⟨some ⟨2024, 1, 1, 0, 0, 0⟩, some ⟨2024, 1, 31, 0, 0, 0⟩⟩

def awemeC8 : Aweme :=
  { aweme_id := some ("1"), author_sec_uid := none,
    create_time := some (CreateTimeVal.str ("2024-01-31 12:00:00")), media_ok := true }

def vW : VideoInfo :=
  { play_addr := none,
    play_addr_h264 := some ⟨["http://c/playwm/720p/v.mp4"]⟩,
    download_addr := none }

def opFail2 : Nat → Except String Nat := fun _ => Except.error ("e")

end DY

namespace DY

/-! ### Helper lemmas -/

theorem downloadSingleVideo_buckets (o : SingleOutcome) (ho : o ≠ SingleOutcome.noId)
    (s : DownloadStats) (h : s.total = s.success + s.failed + s.skipped) :
    ((downloadSingleVideo o s).2).total =
      ((downloadSingleVideo o s).2).success + ((downloadSingleVideo o s).2).failed +
        ((downloadSingleVideo o s).2).skipped := by
  cases o with
  | noId => exact absurd rfl ho
  | fetchFailed => simp [downloadSingleVideo]; omega
  | mediaOk => simp [downloadSingleVideo]; omega
  | mediaFailed => simp [downloadSingleVideo]; omega
  | raisedError => simp [downloadSingleVideo]; omega

theorem runSingles_invariant :
    ∀ (os : List SingleOutcome) (s : DownloadStats),
      (∀ o ∈ os, o ≠ SingleOutcome.noId) →
      s.total = s.success + s.failed + s.skipped →
      (os.foldl (fun s o => (downloadSingleVideo o s).2) s).total =
        (os.foldl (fun s o => (downloadSingleVideo o s).2) s).success +
        (os.foldl (fun s o => (downloadSingleVideo o s).2) s).failed +
        (os.foldl (fun s o => (downloadSingleVideo o s).2) s).skipped := by
  intro os
  induction os with
  | nil => intro s _ hs; simpa using hs
  | cons o os ih =>
    intro s h hs
    simp only [List.foldl_cons]
    exact ih _ (fun o' ho' => h o' (List.mem_cons_of_mem _ ho'))
      (downloadSingleVideo_buckets o (h o (List.mem_cons_self _ _)) s hs)

theorem tryUrls_all_fail (respond : String → HttpResult) (savePath : String) :
    ∀ l : List String, (∀ u ∈ l, ok200 (respond u) = false) →
      tryUrls respond savePath l = (false, l.map DlEv.get) := by
  intro l
  induction l with
  | nil => intro _; rfl
  | cons u rest ih =>
    intro h
    have hu := h u (List.mem_cons_self _ _)
    have hrest := ih (fun v hv => h v (List.mem_cons_of_mem _ hv))
    cases hr : respond u with
    | status code body =>
      by_cases hc : code = 200
      · subst hc; rw [hr] at hu; simp [ok200] at hu
      · simp [tryUrls, hr, hc, hrest]
    | transportError => simp [tryUrls, hr, hrest]

theorem tryUrls_write_mem (respond : String → HttpResult) (savePath : String) :
    ∀ (l : List String) (p b : String),
      DlEv.write p b ∈ (tryUrls respond savePath l).2 →
      p = savePath ∧ ∃ u, respond u = HttpResult.status 200 b := by
  intro l
  induction l with
  | nil => intro p b h; simp [tryUrls] at h
  | cons u rest ih =>
    intro p b h
    cases hr : respond u with
    | status code body =>
      by_cases hc : code = 200
      · subst hc
        simp [tryUrls, hr] at h
        exact ⟨h.1, ⟨u, by rw [hr, h.2]⟩⟩
      · simp [tryUrls, hr, hc] at h
        exact ih p b h
    | transportError =>
      simp [tryUrls, hr] at h
      exact ih p b h

theorem tryUrls_no_persist (respond : String → HttpResult) (savePath : String) :
    ∀ (l : List String) (s d : String),
      DlEv.persist s d ∉ (tryUrls respond savePath l).2 := by
  intro l
  induction l with
  | nil => intro s d h; simp [tryUrls] at h
  | cons u rest ih =>
    intro s d h
    cases hr : respond u with
    | status code body =>
      by_cases hc : code = 200
      · subst hc; simp [tryUrls, hr] at h
      · simp [tryUrls, hr, hc] at h
        exact ih s d h
    | transportError =>
      simp [tryUrls, hr] at h
      exact ih s d h

theorem retryGo_invokes_le {ε α : Type} (op : Nat → Except ε α) (m : Nat) :
    ∀ (r a : Nat) (le : Option ε), countInvokes (retryGo op m r a le).2 ≤ r := by
  intro r
  induction r with
  | zero => intro a le; cases le <;> simp [retryGo, countInvokes]
  | succ r ih =>
    intro a le
    cases hr : op a with
    | ok v => simp [retryGo, hr, countInvokes, List.countP_cons, isInvoke]
    | error e =>
      have hrec := ih (a + 1) (some e)
      by_cases hc : a < m - 1 <;>
        simp [retryGo, hr, hc, countInvokes, List.countP_cons, isInvoke] at hrec ⊢ <;>
        omega

theorem retryGo_all_fail {ε α : Type} (op : Nat → Except ε α) (m : Nat)
    (hf : ∀ i, i < m → exceptIsOk (op i) = false) :
    ∀ (k a : Nat) (le : Option ε), a + (k + 1) = m →
      retryGo op m (k + 1) a le = (some (op (m - 1)), scheduleFrom a (k + 1)) := by
  intro k
  induction k with
  | zero =>
    intro a le ha
    have hfa := hf a (by omega)
    cases hr : op a with
    | ok v => rw [hr] at hfa; simp [exceptIsOk] at hfa
    | error e =>
      have ha' : a = m - 1 := by omega
      subst ha'
      simp [retryGo, hr, scheduleFrom]
  | succ k ih =>
    intro a le ha
    have hfa := hf a (by omega)
    cases hr : op a with
    | ok v => rw [hr] at hfa; simp [exceptIsOk] at hfa
    | error e =>
      have hc : a < m - 1 := by omega
      have hrec := ih (a + 1) (some e) (by omega)
      rw [retryGo]
      simp [hr, hc, hrec, scheduleFrom]

/-! ### Claim theorems -/

/-- C1 (counterexample): the claim "total = success + failed + skipped at
the final summary" is false on the code: a run over one link from which
no ID can be extracted increments `total` in the `finally` block of
`download_single_video` but touches no bucket. -/
theorem stats_total_counterexample :
    (runSingles [SingleOutcome.noId]).total ≠
      (runSingles [SingleOutcome.noId]).success + (runSingles [SingleOutcome.noId]).failed +
        (runSingles [SingleOutcome.noId]).skipped := by decide

/-- C1 (amended): for runs of single-video/image downloads in which every
link yields an extractable ID, every processed item lands in exactly one
bucket and the final stats satisfy total = success + failed + skipped. -/
theorem stats_buckets_amended (os : List SingleOutcome)
    (h : ∀ o ∈ os, o ≠ SingleOutcome.noId) :
    (runSingles os).total =
      (runSingles os).success + (runSingles os).failed + (runSingles os).skipped :=
  runSingles_invariant os ⟨0, 0, 0, 0⟩ h rfl

theorem stats_buckets_amended_witness :
    (∀ o ∈ [SingleOutcome.mediaOk, SingleOutcome.mediaFailed], o ≠ SingleOutcome.noId) ∧
    (runSingles [SingleOutcome.mediaOk, SingleOutcome.mediaFailed]).total =
      (runSingles [SingleOutcome.mediaOk, SingleOutcome.mediaFailed]).success +
      (runSingles [SingleOutcome.mediaOk, SingleOutcome.mediaFailed]).failed +
      (runSingles [SingleOutcome.mediaOk, SingleOutcome.mediaFailed]).skipped :=
  ⟨by decide, stats_buckets_amended _ (by decide)⟩

/-- C2 (counterexample): the claim that an HTTP 200 body is written via a
temp-then-persist sequence is false on the code: on a 200 response
`_download_file` writes the body directly to the final destination path
and performs no persist (rename) step. -/
theorem download_write_counterexample :
    downloadFile false respond200 ("u") ("/d/v.mp4") [] =
      (true, [DlEv.get ("u"), DlEv.write ("/d/v.mp4") ("BODY")]) ∧
    DlEv.write ("/d/v.mp4") ("BODY") ∈ (downloadFile false respond200 ("u") ("/d/v.mp4") []).2 ∧
    ∀ s d, DlEv.persist s d ∉ (downloadFile false respond200 ("u") ("/d/v.mp4") []).2 := by
  refine ⟨rfl, by decide, ?_⟩
  intro s d hmem
  have h : (downloadFile false respond200 ("u") ("/d/v.mp4") []).2 =
      [DlEv.get ("u"), DlEv.write ("/d/v.mp4") ("BODY")] := rfl
  rw [h] at hmem
  simp at hmem

/-- C2 (amended): whenever a file download receives an HTTP 200 response,
the full response body is written in a single direct write to
`destination_path`; no temporary location is used and no persist step
occurs, so an aborted in-progress write can leave a partial file at the
final destination. -/
theorem download_write_direct (respond : String → HttpResult)
    (url savePath : String) (fbs : List String) :
    (∀ p b, DlEv.write p b ∈ (downloadFile false respond url savePath fbs).2 →
      p = savePath ∧ ∃ u, respond u = HttpResult.status 200 b) ∧
    (∀ s d, DlEv.persist s d ∉ (downloadFile false respond url savePath fbs).2) := by
  constructor
  · intro p b h
    exact tryUrls_write_mem respond savePath _ p b (by simpa [downloadFile] using h)
  · intro s d h
    exact tryUrls_no_persist respond savePath _ s d (by simpa [downloadFile] using h)

theorem download_write_direct_witness :
    DlEv.write ("dst") ("BODY") ∈ (downloadFile false respond200 ("u") ("dst") []).2 ∧
    (("dst" : String) = "dst" ∧ ∃ u, respond200 u = HttpResult.status 200 ("BODY")) :=
  ⟨by decide, (download_write_direct respond200 ("u") ("dst") []).1 ("dst") ("BODY") (by decide)⟩

/-- C3 (code bug): for the mix scope the claim fails on the code: the mix
walker `_download_mix_by_id` drives a full run (here: one item,
successfully downloaded) without ever querying or inserting into the
dedup store, even though `_should_skip_increment` does support the mix
scope (last conjunct) — that support is never invoked from the mix loop. -/
theorem mix_walker_no_dedup :
    (downloadMixById [some pageW]).2.events = [DbEv.mediaDl (some ("123")) true] ∧
    (∀ s n, DbEv.query s n ∉ (downloadMixById [some pageW]).2.events) ∧
    (∀ s n, DbEv.insert s n ∉ (downloadMixById [some pageW]).2.events) ∧
    shouldSkipIncrement (some dbAll) incAllOn Scope.mix awemeC (some ("m1")) none (some ("sec")) =
      (true, [DbEv.query Scope.mix 123]) := by
  refine ⟨rfl, ?_, ?_, rfl⟩
  · intro s n hmem
    have h : (downloadMixById [some pageW]).2.events = [DbEv.mediaDl (some ("123")) true] := rfl
    rw [h] at hmem
    simp at hmem
  · intro s n hmem
    have h : (downloadMixById [some pageW]).2.events = [DbEv.mediaDl (some ("123")) true] := rfl
    rw [h] at hmem
    simp at hmem

/-- C4: for a download target whose destination does not yet exist and
whose primary URL and every fallback URL all return a non-200 status or
a transport error, `_download_file` returns False and writes no file. -/
theorem download_exhaustion_fails (respond : String → HttpResult)
    (url savePath : String) (fbs : List String)
    (h : ∀ u ∈ url :: fbs, ok200 (respond u) = false) :
    (downloadFile false respond url savePath fbs).1 = false ∧
    ∀ p b, DlEv.write p b ∉ (downloadFile false respond url savePath fbs).2 := by
  have hcand : ∀ u ∈ url :: fbs.filter (fun v => v != url), ok200 (respond u) = false := by
    intro u hu
    rcases List.mem_cons.1 hu with h1 | h2
    · subst h1; exact h _ (List.mem_cons_self _ _)
    · exact h u (List.mem_cons_of_mem _ (List.mem_of_mem_filter h2))
  have hall := tryUrls_all_fail respond savePath _ hcand
  constructor
  · simp [downloadFile, hall]
  · intro p b hmem
    simp [downloadFile, hall] at hmem

theorem download_exhaustion_fails_witness :
    (∀ u ∈ ("p" :: ["f1"]), ok200 (respond404 u) = false) ∧
    ((downloadFile false respond404 ("p") ("dst") ["f1"]).1 = false ∧
     ∀ p b, DlEv.write p b ∉ (downloadFile false respond404 ("p") ("dst") ["f1"]).2) :=
  ⟨by decide, download_exhaustion_fails respond404 ("p") ("dst") ["f1"] (by decide)⟩

/-- C5: for a download target whose destination path already exists,
`_download_file` returns True immediately and performs no network
request (empty event trace). -/
theorem download_existing_skips_network (respond : String → HttpResult)
    (url savePath : String) (fbs : List String) :
    downloadFile true respond url savePath fbs = (true, []) := rfl

/-- C6: `execute_with_retry` invokes the operation at most `n` times; when
every attempt fails it produces exactly the schedule invoke, sleep
`delay[min(attempt, len(delay)-1)]` (delays 1, 2, 5) between attempts,
no sleep after the last, and re-raises the last failure. -/
theorem retry_contract {ε α : Type} (n : Nat) (op : Nat → Except ε α) (hn : 1 ≤ n) :
    countInvokes (executeWithRetry n op).2 ≤ n ∧
    ((∀ i, i < n → exceptIsOk (op i) = false) →
      executeWithRetry n op = (some (op (n - 1)), scheduleFrom 0 n)) := by
  constructor
  · exact retryGo_invokes_le op n n 0 none
  · intro hf
    obtain ⟨k, hk⟩ : ∃ k, n = k + 1 := ⟨n - 1, by omega⟩
    subst hk
    exact retryGo_all_fail op (k + 1) hf k 0 none (by omega)

theorem retry_contract_witness :
    (1 ≤ 2 ∧ ∀ i, i < 2 → exceptIsOk (opFail2 i) = false) ∧
    executeWithRetry 2 opFail2 = (some (opFail2 1), scheduleFrom 0 2) :=
  ⟨⟨by decide, by decide⟩, (retry_contract 2 opFail2 (by decide)).2 (by decide)⟩

/-- C7: the primary video URL is the first candidate of the H264-tagged
play address when that address is present (truthy), otherwise of the
generic play address, with `playwm` replaced by `play` and `720p` by
`1080p`; when neither play address has candidates the first
`download_addr` candidate is used (and when that list is empty too,
`head?` yields no URL). -/
theorem video_url_selection (v : VideoInfo) :
    (∀ a u rest, v.play_addr_h264 = some a → a.url_list = u :: rest →
      getNoWatermarkUrl v = some (noWatermarkTransform u)) ∧
    (∀ a u rest, v.play_addr_h264 = none → v.play_addr = some a → a.url_list = u :: rest →
      getNoWatermarkUrl v = some (noWatermarkTransform u)) ∧
    (addrUrls v.play_addr_h264 = [] → addrUrls v.play_addr = [] →
      getNoWatermarkUrl v = (addrUrls v.download_addr).head?) := by
  refine ⟨?_, ?_, ?_⟩
  · intro a u rest h1 h2
    simp [getNoWatermarkUrl, h1, h2]
  · intro a u rest h1 h2 h3
    simp [getNoWatermarkUrl, h1, h2, h3]
  · intro h1 h2
    rcases hh : v.play_addr_h264 with _ | a
    · rcases hp : v.play_addr with _ | b
      · simp [getNoWatermarkUrl, hh, hp]
      · have hb : b.url_list = [] := by simpa [addrUrls, hp] using h2
        simp [getNoWatermarkUrl, hh, hp, hb]
    · have ha : a.url_list = [] := by simpa [addrUrls, hh] using h1
      simp [getNoWatermarkUrl, hh, ha]

theorem video_url_selection_witness :
    getNoWatermarkUrl vW = some ("http://c/play/1080p/v.mp4") := by
  have h := (video_url_selection vW).1 ⟨["http://c/playwm/720p/v.mp4"]⟩
    ("http://c/playwm/720p/v.mp4") [] rfl rfl
  exact h.trans (by decide)

/-- C8 (counterexample): the claim "an item on or before the configured
end date is included" is false on the code: the end bound is the
midnight datetime of the end date, so an item created later on the end
date itself (here 2024-01-31 12:00:00 with end date 2024-01-31) is
excluded. -/
theorem time_filter_end_counterexample :
    parseCreateString ("2024-01-31 12:00:00") = some ⟨2024, 1, 31, 12, 0, 0⟩ ∧
    tcC.end_time = some ⟨2024, 1, 31, 0, 0, 0⟩ ∧
    checkTimeFilter fromTs0 tcC awemeC8 = false :=
  ⟨rfl, rfl, rfl⟩

/-- C8 (amended): for an item whose create_time parses, a configured
start bound excludes exactly the items created strictly before midnight
of the start date, and an item is included when it is not before the
start bound and not after midnight of the end date (items later on the
end date than 00:00:00 are excluded). -/
theorem time_filter_amended (fromTs : Int → Option PyDateTime) (tc : TimeCfg)
    (aweme : Aweme) (cd : PyDateTime)
    (hfal : createTimeFalsy aweme.create_time = false)
    (hcd : parsedCreateDate fromTs aweme.create_time = some cd) :
    (∀ sd, tc.start_time = some sd → dtLt cd sd = true →
      checkTimeFilter fromTs tc aweme = false) ∧
    (startPass cd tc.start_time = true → endPass cd tc.end_time = true →
      checkTimeFilter fromTs tc aweme = true) := by
  constructor
  · intro sd hsd hlt
    rcases he : tc.end_time with _ | ed <;>
      simp [checkTimeFilter, hsd, he, hfal, hcd, hlt]
  · intro h1 h2
    rcases hs : tc.start_time with _ | sd
    · rcases he : tc.end_time with _ | ed
      · simp [checkTimeFilter, hs, he]
      · simp [endPass, he] at h2
        simp [checkTimeFilter, hs, he, hfal, hcd, h2]
    · simp [startPass, hs] at h1
      rcases he : tc.end_time with _ | ed
      · simp [checkTimeFilter, hs, he, hfal, hcd, h1]
      · simp [endPass, he] at h2
        simp [checkTimeFilter, hs, he, hfal, hcd, h1, h2]

theorem time_filter_amended_witness :
    (createTimeFalsy awemeW.create_time = false ∧
     parsedCreateDate fromTs0 awemeW.create_time = some cdW ∧
     tcW.start_time = some sdW ∧ dtLt cdW sdW = true) ∧
    checkTimeFilter fromTs0 tcW awemeW = false :=
  ⟨⟨rfl, rfl, rfl, rfl⟩,
   (time_filter_amended fromTs0 tcW awemeW cdW rfl rfl).1 sdW rfl rfl⟩

/-- C9: a page whose has_more is false ends the pagination loop after
exactly that one page (one fetch, result independent of any further
pages), for both the user-posts walker and the mix walker; a fetch
returning no data or a page with an empty item list likewise ends the
loop. -/
theorem pagination_termination (fromTs : Int → Option PyDateTime) (cfg : Cfg)
    (db : Option Db) (uid : String) (page : Page) (rest : List (Option Page)) :
    (page.has_more = false →
      downloadUserPosts fromTs cfg db uid (some page :: rest) =
        downloadUserPosts fromTs cfg db uid [some page] ∧
      (downloadUserPosts fromTs cfg db uid (some page :: rest)).1 = 1 ∧
      downloadMixById (some page :: rest) = downloadMixById [some page] ∧
      (downloadMixById (some page :: rest)).1 = 1) ∧
    downloadMixById (none :: rest) = (1, initSt) ∧
    (page.aweme_list = [] →
      downloadMixById (some page :: rest) = (1, initSt) ∧
      downloadUserPosts fromTs cfg db uid (some page :: rest) = (1, initSt)) ∧
    (∀ st fc, postsPagesGo fromTs cfg db uid (none :: rest) st fc = (fc + 1, st)) := by
  refine ⟨?_, rfl, ?_, fun st fc => rfl⟩
  · intro hm
    refine ⟨?_, ?_, ?_, ?_⟩
    · simp [downloadUserPosts, hm]
    · simp [downloadUserPosts, hm]
      split <;> simp
    · simp [downloadMixById, mixPagesGo, hm]
    · simp [downloadMixById, mixPagesGo, hm]
      split <;> simp
  · intro he
    constructor
    · simp [downloadMixById, mixPagesGo, he]
    · simp [downloadUserPosts, he]

theorem pagination_termination_witness :
    pageW.has_more = false ∧
    (downloadUserPosts fromTs0 cfg0 none ("u") [some pageW, none]).1 = 1 ∧
    (downloadMixById [some pageW, none]).1 = 1 :=
  ⟨rfl,
   ((pagination_termination fromTs0 cfg0 none ("u") pageW [none]).1 rfl).2.1,
   ((pagination_termination fromTs0 cfg0 none ("u") pageW [none]).1 rfl).2.2.2⟩

/-- C10: an item whose create_time is missing, or is a string that none
of the three accepted formats parses to a datetime, passes the time
filter (is included) regardless of the configured bounds. -/
theorem time_filter_unparsed_included (fromTs : Int → Option PyDateTime)
    (tc : TimeCfg) (aweme : Aweme)
    (h : aweme.create_time = none ∨
      ∃ s, aweme.create_time = some (CreateTimeVal.str s) ∧ parseCreateString s = none) :
    checkTimeFilter fromTs tc aweme = true := by
  rcases h with h | ⟨s, hct, hps⟩
  · rcases hst : tc.start_time with _ | sd <;> rcases hen : tc.end_time with _ | ed <;>
      simp [checkTimeFilter, hst, hen, createTimeFalsy, h]
  · rcases hst : tc.start_time with _ | sd <;> rcases hen : tc.end_time with _ | ed <;>
      simp [checkTimeFilter, hst, hen, createTimeFalsy, parsedCreateDate, hct, hps]

theorem time_filter_unparsed_included_witness :
    (awemeU.create_time = some (CreateTimeVal.str ("2024/01/31")) ∧
     parseCreateString ("2024/01/31") = none) ∧
    checkTimeFilter fromTs0 tcW awemeU = true :=
  ⟨⟨rfl, rfl⟩,
   time_filter_unparsed_included fromTs0 tcW awemeU
     (Or.inr ⟨"2024/01/31", rfl, rfl⟩)⟩

end DY
